import Mathlib

/-!
Shallow embedding of the script in Play console/resize_logo.py.

The script is a single function:

  def resize_image(input_path, output_path, size=(512, 512)):
      try:
          with Image.open(input_path) as img:
              resized_img = img.resize(size, Image.Resampling.LANCZOS)
              resized_img.save(output_path)
              print(f"Success! Image saved as {output_path}")
      except FileNotFoundError:
          print("Error: \x27logo.png\x27 not found.")
      except Exception as e:
          print(f"An error occurred: {e}")

  if __name__ == "__main__":
      resize_image("logo.png", "logo_512.png")

We model the ambient filesystem and the PIL library calls by an abstract
environment: `Env.files` says what opening each path yields (absent path,
a decoded image, or an unreadable file), and `Env.saveResult` says whether
saving to a path succeeds or raises which Python exception.  The function
itself becomes a total Lean function returning the observable effects:
console lines printed, files written, resampling filters used, and whether
the input image was opened and whether it was closed again (the `with`
statement guarantees closing on every exit from its body).
-/

namespace ResizeLogo

/-- A decoded in-memory bitmap: all the claims care about is its pixel
dimensions. -/
structure Image where
  width : Nat
  height : Nat
deriving DecidableEq, Repr

/-- The resampling filters PIL offers as `Image.Resampling` members. -/
inductive Filter where
  | nearest
  | box
  | bilinear
  | hamming
  | bicubic
  | lanczos
deriving DecidableEq, Repr

/-- `img.resize(size, filter)`: PIL returns a new image whose dimensions are
exactly the requested size, whatever the filter. -/
def Image.resize (_img : Image) (size : Nat × Nat) (_f : Filter) : Image :=
  { width := size.1, height := size.2 }

/-- The two ways a raised Python exception is dispatched by the except
clauses of `resize_image`: `FileNotFoundError` matches the first clause,
every other `Exception` matches the second; the payload is the text `str(e)`
interpolated by the second handler. -/
inductive PyError where
  | fileNotFoundError (msg : String)
  | otherError (msg : String)
deriving DecidableEq, Repr

/-- What opening a path can find: nothing (the path does not resolve to a
file), a decoded image, or a file PIL cannot decode (`UnidentifiedImageError`
text carried as a string, an `Exception` that is not `FileNotFoundError`). -/
inductive FileContent where
  | image (img : Image)
  | invalid (desc : String)
deriving DecidableEq, Repr

/-- The ambient world: what each input path opens to, and whether saving to
each output path succeeds (`none`) or raises an exception (`some e`; note a
save into a directory that does not exist raises `FileNotFoundError`). -/
structure Env where
  files : String → Option FileContent
  saveResult : String → Option PyError

/-- `Image.open(input_path)`: raises `FileNotFoundError` when the path does
not resolve to a file, raises another exception when the file is not a
decodable image, otherwise yields the decoded image. -/
def Image.open (env : Env) (input_path : String) : Except PyError Image :=
  match env.files input_path with
  | none => Except.error (PyError.fileNotFoundError input_path)
  | some (FileContent.invalid d) => Except.error (PyError.otherError d)
  | some (FileContent.image img) => Except.ok img

/-- The observable effects of one invocation of `resize_image`: console
lines in order, files written as (path, image) pairs, resampling filters
passed to `resize`, whether the input image was opened, and whether it was
closed again by the `with` statement. -/
structure Effects where
  printed : List String
  written : List (String × Image)
  filtersUsed : List Filter
  opened : Bool
  closed : Bool
deriving DecidableEq, Repr

/-- The body of the `try` block (the `with` statement and its suite).  It
either completes, or raises an exception; in both cases it reports the
effects so far.  The `with` statement closes the opened image on every exit
from its suite, normal or exceptional, so `closed` equals `opened` in every
branch below. -/
def tryBody (env : Env) (input_path output_path : String) (size : Nat × Nat) :
    Except (PyError × Effects) Effects :=
  match Image.open env input_path with
  | Except.error e =>
      Except.error (e,
        { printed := [], written := [], filtersUsed := [],
          opened := false, closed := false })
  | Except.ok img =>
      let resized_img := Image.resize img size Filter.lanczos
      match env.saveResult output_path with
      | some e =>
          Except.error (e,
            { printed := [], written := [], filtersUsed := [Filter.lanczos],
              opened := true, closed := true })
      | none =>
          Except.ok
            { printed := ["Success! Image saved as " ++ output_path],
              written := [(output_path, resized_img)],
              filtersUsed := [Filter.lanczos],
              opened := true, closed := true }

/-- The whole of `resize_image`: run the `try` body, then dispatch any raised
exception to the two `except` clauses.  `size` defaults to `(512, 512)` as in
the Python signature.  The function is total: no exception escapes. -/
def resize_image (env : Env) (input_path output_path : String)
    (size : Nat × Nat := (512, 512)) : Effects :=
  match tryBody env input_path output_path size with
  | Except.ok eff => eff
  | Except.error (PyError.fileNotFoundError _, eff) =>
      { eff with printed := eff.printed ++ ["Error: \x27logo.png\x27 not found."] }
  | Except.error (PyError.otherError m, eff) =>
      { eff with printed := eff.printed ++ ["An error occurred: " ++ m] }

/-- The `__main__` block: a single call
`resize_image("logo.png", "logo_512.png")` with the default size. -/
def mainBlock (env : Env) : Effects :=
  resize_image env "logo.png" "logo_512.png"

/-- An environment in which `in.png` opens to a 512x512 image and every save
succeeds. -/
def envOk : Env :=
  { files := fun p =>
      if p = "in.png" then some (FileContent.image { width := 512, height := 512 })
      else none
    saveResult := fun _ => none }

/-- An environment in which `logo.png` opens to a 1024x1024 image, saving to
`nodir/out.png` raises `FileNotFoundError` (the output directory does not
exist), saving to `ro/out.png` raises a permission error, and every other
save succeeds. -/
def envSaveFail : Env :=
  { files := fun p =>
      if p = "logo.png" then some (FileContent.image { width := 1024, height := 1024 })
      else none
    saveResult := fun p =>
      if p = "nodir/out.png" then
        some (PyError.fileNotFoundError
          "[Errno 2] No such file or directory: \x27nodir/out.png\x27")
      else if p = "ro/out.png" then
        some (PyError.otherError
          "[Errno 13] Permission denied: \x27ro/out.png\x27")
      else none }

/-- Claim C1: for every valid input image and every target size (w, h) with
w > 0 and h > 0, the image written by the resize operation to the output path
has dimensions exactly (w, h); in particular resizing an already-512x512
image to (512, 512) again yields a 512x512 image. -/
theorem resize_output_dims (env : Env) (input_path output_path : String)
    (w h : Nat) (img : Image)
    (hw : 0 < w) (hh : 0 < h)
    (hin : env.files input_path = some (FileContent.image img))
    (hsave : env.saveResult output_path = none) :
    (resize_image env input_path output_path (w, h)).written =
      [(output_path, { width := w, height := h })] := by
  unfold resize_image tryBody Image.open
  rw [hin, hsave]
  rfl

/-- Witness for C1 at the idempotence instance: a 512x512 input resized to
(512, 512) is written with dimensions 512x512. -/
theorem resize_output_dims_witness :
    0 < 512 ∧ 0 < 512 ∧
    envOk.files "in.png" = some (FileContent.image { width := 512, height := 512 }) ∧
    envOk.saveResult "out.png" = none ∧
    (resize_image envOk "in.png" "out.png" (512, 512)).written =
      [("out.png", { width := 512, height := 512 })] :=
  ⟨by decide, by decide, by decide, by decide,
    resize_output_dims envOk "in.png" "out.png" 512 512
      { width := 512, height := 512 } (by decide) (by decide) (by decide) (by decide)⟩

/-- Claim C2: for every input path that does not resolve to an existing file,
the operation fails with the FileNotFound condition, prints the fixed message
naming the expected missing file, and performs no filesystem write to the
output path. -/
theorem missing_input_no_write (env : Env) (input_path output_path : String)
    (size : Nat × Nat) (hin : env.files input_path = none) :
    resize_image env input_path output_path size =
      { printed := ["Error: \x27logo.png\x27 not found."], written := [],
        filtersUsed := [], opened := false, closed := false } := by
  unfold resize_image tryBody Image.open
  rw [hin]
  rfl

/-- Witness for C2: in `envOk` the path `missing.png` does not exist; the run
prints the fixed not-found message and writes nothing. -/
theorem missing_input_no_write_witness :
    envOk.files "missing.png" = none ∧
    resize_image envOk "missing.png" "out.png" (512, 512) =
      { printed := ["Error: \x27logo.png\x27 not found."], written := [],
        filtersUsed := [], opened := false, closed := false } :=
  ⟨by decide, missing_input_no_write envOk "missing.png" "out.png" (512, 512) (by decide)⟩

/-- Counterexample to C3 as stated: with a valid input image, saving into a
directory that does not exist raises FileNotFoundError inside the `try`
block, which the first `except` clause catches, so the run prints the fixed
not-found message and not the generic message carrying the underlying error
text. -/
theorem save_missing_dir_counterexample :
    (resize_image envSaveFail "logo.png" "nodir/out.png" (512, 512)).printed =
        ["Error: \x27logo.png\x27 not found."] ∧
    (resize_image envSaveFail "logo.png" "nodir/out.png" (512, 512)).printed ≠
        ["An error occurred: [Errno 2] No such file or directory: \x27nodir/out.png\x27"] := by
  exact ⟨by decide, by decide⟩

/-- Claim C3 amended: with a valid input image, a failing save produces the
generic OperationFailed message carrying the underlying error text whenever
the exception raised by the save is not FileNotFoundError (for example a
permission error); when the save raises FileNotFoundError (for example an
output directory that does not exist) the fixed not-found message is printed
instead. -/
theorem save_failure_messages (env : Env) (input_path output_path : String)
    (size : Nat × Nat) (img : Image)
    (hin : env.files input_path = some (FileContent.image img)) :
    (∀ m, env.saveResult output_path = some (PyError.otherError m) →
      (resize_image env input_path output_path size).printed =
        ["An error occurred: " ++ m]) ∧
    (∀ m, env.saveResult output_path = some (PyError.fileNotFoundError m) →
      (resize_image env input_path output_path size).printed =
        ["Error: \x27logo.png\x27 not found."]) := by
  constructor <;>
    · intro m hm
      unfold resize_image tryBody Image.open
      rw [hin, hm]
      rfl

/-- Witness for the amended C3: saving to a read-only location raises a
permission error and the run prints the generic message with that text. -/
theorem save_failure_messages_witness :
    envSaveFail.files "logo.png" =
      some (FileContent.image { width := 1024, height := 1024 }) ∧
    envSaveFail.saveResult "ro/out.png" =
      some (PyError.otherError "[Errno 13] Permission denied: \x27ro/out.png\x27") ∧
    (resize_image envSaveFail "logo.png" "ro/out.png" (512, 512)).printed =
      ["An error occurred: [Errno 13] Permission denied: \x27ro/out.png\x27"] :=
  ⟨by decide, by decide,
    (save_failure_messages envSaveFail "logo.png" "ro/out.png" (512, 512)
        { width := 1024, height := 1024 } (by decide)).1
      "[Errno 13] Permission denied: \x27ro/out.png\x27" (by decide)⟩

/-- Claim C4: for every input the operation handles both error kinds locally
and never propagates a failure: it is a total function that prints exactly
one console message on every run. -/
theorem always_one_message (env : Env) (input_path output_path : String)
    (size : Nat × Nat) :
    (resize_image env input_path output_path size).printed.length = 1 := by
  unfold resize_image tryBody Image.open
  rcases env.files input_path with _ | (img | d)
  · rfl
  · rcases env.saveResult output_path with _ | (m | m) <;> rfl
  · rfl

/-- Claim C5: for every input path that does not exist, the printed message
is the fixed literal naming logo.png, independent of the actual input path
argument. -/
theorem missing_input_fixed_literal (env : Env) (input_path output_path : String)
    (size : Nat × Nat) (hin : env.files input_path = none) :
    (resize_image env input_path output_path size).printed =
      ["Error: \x27logo.png\x27 not found."] := by
  unfold resize_image tryBody Image.open
  rw [hin]
  rfl

/-- Witness for C5 at an input path different from logo.png: the message
still names logo.png. -/
theorem missing_input_fixed_literal_witness :
    envOk.files "some_other_image.png" = none ∧
    (resize_image envOk "some_other_image.png" "out.png" (512, 512)).printed =
      ["Error: \x27logo.png\x27 not found."] :=
  ⟨by decide,
    missing_input_fixed_literal envOk "some_other_image.png" "out.png" (512, 512) (by decide)⟩

/-- Claim C6: every successfully opened input image is resampled with the
Lanczos filter and no other filter. -/
theorem lanczos_only (env : Env) (input_path output_path : String)
    (size : Nat × Nat) (img : Image)
    (hin : env.files input_path = some (FileContent.image img)) :
    (resize_image env input_path output_path size).filtersUsed = [Filter.lanczos] := by
  unfold resize_image tryBody Image.open
  rw [hin]
  rcases env.saveResult output_path with _ | (m | m) <;> rfl

/-- Witness for C6: on a successful run over `envOk` the only filter used is
Lanczos. -/
theorem lanczos_only_witness :
    envOk.files "in.png" = some (FileContent.image { width := 512, height := 512 }) ∧
    (resize_image envOk "in.png" "out.png" (100, 50)).filtersUsed = [Filter.lanczos] :=
  ⟨by decide,
    lanczos_only envOk "in.png" "out.png" (100, 50)
      { width := 512, height := 512 } (by decide)⟩

/-- Claim C7: every invocation on which open, resample and save all complete
prints a success message containing the output path that was written. -/
theorem success_message_names_output (env : Env) (input_path output_path : String)
    (size : Nat × Nat) (img : Image)
    (hin : env.files input_path = some (FileContent.image img))
    (hsave : env.saveResult output_path = none) :
    (resize_image env input_path output_path size).printed =
      ["Success! Image saved as " ++ output_path] := by
  unfold resize_image tryBody Image.open
  rw [hin, hsave]

/-- Witness for C7: a successful run over `envOk` prints the success message
ending in the output path. -/
theorem success_message_names_output_witness :
    envOk.files "in.png" = some (FileContent.image { width := 512, height := 512 }) ∧
    envOk.saveResult "out.png" = none ∧
    (resize_image envOk "in.png" "out.png" (512, 512)).printed =
      ["Success! Image saved as out.png"] :=
  ⟨by decide, by decide,
    success_message_names_output envOk "in.png" "out.png" (512, 512)
      { width := 512, height := 512 } (by decide) (by decide)⟩

/-- Claim C8: when the size argument is omitted the operation uses the
default size (512, 512), a pair of positive integers. -/
theorem default_size (env : Env) (input_path output_path : String) :
    resize_image env input_path output_path =
      resize_image env input_path output_path (512, 512) ∧
    0 < (512 : Nat) ∧ 0 < (512 : Nat) :=
  ⟨rfl, by decide, by decide⟩

/-- Claim C9: the `__main__` block invokes the operation exactly once with
input path logo.png, output path logo_512.png and the default size; for a
1024x1024 logo.png it writes logo_512.png at 512x512 and prints a success
message naming logo_512.png. -/
theorem main_block_run (env : Env)
    (hin : env.files "logo.png" =
      some (FileContent.image { width := 1024, height := 1024 }))
    (hsave : env.saveResult "logo_512.png" = none) :
    mainBlock env = resize_image env "logo.png" "logo_512.png" (512, 512) ∧
    (mainBlock env).written = [("logo_512.png", { width := 512, height := 512 })] ∧
    (mainBlock env).printed = ["Success! Image saved as logo_512.png"] := by
  refine ⟨rfl, ?_, ?_⟩
  · unfold mainBlock resize_image tryBody Image.open
    rw [hin, hsave]
    rfl
  · unfold mainBlock resize_image tryBody Image.open
    rw [hin, hsave]
    rfl

/-- Witness for C9 over `envSaveFail`, whose logo.png is a 1024x1024 image
and whose save to logo_512.png succeeds. -/
theorem main_block_run_witness :
    envSaveFail.files "logo.png" =
      some (FileContent.image { width := 1024, height := 1024 }) ∧
    envSaveFail.saveResult "logo_512.png" = none ∧
    (mainBlock envSaveFail).written =
      [("logo_512.png", { width := 512, height := 512 })] ∧
    (mainBlock envSaveFail).printed = ["Success! Image saved as logo_512.png"] :=
  ⟨by decide, by decide,
    (main_block_run envSaveFail (by decide) (by decide)).2.1,
    (main_block_run envSaveFail (by decide) (by decide)).2.2⟩

/-- Claim C10: on every exit path of the operation the opened input image is
closed before it returns: the `with` statement makes `closed` track `opened`
in every branch, success or failure. -/
theorem resources_released (env : Env) (input_path output_path : String)
    (size : Nat × Nat) :
    (resize_image env input_path output_path size).closed =
      (resize_image env input_path output_path size).opened := by
  unfold resize_image tryBody Image.open
  rcases env.files input_path with _ | (img | d)
  · rfl
  · rcases env.saveResult output_path with _ | (m | m) <;> rfl
  · rfl

end ResizeLogo
